import Mathlib

/-!
Verification of the carbontracker intensity-resolution subsystem.

The definitions below are a shallow embedding of
`carbontracker/emissions/intensity/intensity.py`,
`carbontracker/emissions/intensity/fetcher.py` and the concrete fetchers
(`electricitymaps.py`, `energidataservice.py`).  Python floats are modelled
as rationals, Python exceptions as an explicit `Exc` type threaded through
`Except`, the logger as a list of emitted warning strings, and object state
by explicit state passing (each method returns the possibly-updated service).
-/

namespace Carbontracker

/-- `constants.WORLD_AVG_CARBON_INTENSITY` (constants.py line 21). -/
def WORLD_AVG_CARBON_INTENSITY : ℚ := 445

/-- `constants.WORLD_AVG_CARBON_INTENSITY_YEAR` (constants.py line 22). -/
def WORLD_AVG_CARBON_INTENSITY_YEAR : Nat := 2024

/-- Model of the Python exceptions observed in the subsystem.
`fetchError` models `exceptions.CarbonIntensityFetcherError` (the repo's
`exceptions.py` is not under src/; Modelled from the spec: the single
`FetchError` taxonomy error carrying a details payload). The other
constructors model raw Python exceptions: `AttributeError`, `KeyError`,
exceptions raised by the `requests` transport layer, JSON parsing errors,
and arbitrary other exceptions. -/
inductive Exc where
  | fetchError (details : String)
  | attributeError (msg : String)
  | keyError (msg : String)
  | transportError (msg : String)
  | parseError (msg : String)
  | other (msg : String)
  deriving Repr, DecidableEq

/-- True exactly for the taxonomy error `CarbonIntensityFetcherError`. -/
def Exc.isFetchError : Exc → Bool
  | .fetchError _ => true
  | _ => false

/-- Modelled from the spec: the Geolocation Collaborator's result object
(spec section 6: exposes `ok`, `address`, `country`; the repo's
`emissions/intensity/location.py` and the external `geocoder` library are
not under src/).  `postal` models the optional postcode attribute read by
the GB fetcher via `getattr(g_location, "postal", None)`. -/
structure Location where
  ok : Bool
  address : String
  country : String
  postal : Option String := none
  deriving Repr, DecidableEq

/-- `IntensityFetch` (intensity.py lines 11-19 / fetcher.py lines 5-13):
the result value type.  Field defaults follow the Python constructor
(`is_prediction = False`, `time_duration = None`). -/
structure IntensityFetch where
  carbon_intensity : ℚ
  address : String
  country : String
  is_fetched : Bool
  is_localized : Bool
  is_prediction : Bool := false
  time_duration : Option Int := none
  deriving Repr, DecidableEq

/-- Behaviour of an injected intensity fetcher, as the service and the
declared interface use it (duck typing made explicit):
* `suitable` — `IntensityFetcher.suitable` (fetcher.py lines 22-25); it is
  invoked outside any `try`, so it may raise (`Except.error`).
* `carbon_intensity` — the attribute the service actually calls at
  intensity.py line 46 (`self.intensity_fetcher.carbon_intensity(...)`),
  returning a bare float.  The declared interface does not define it, so
  the default models the `AttributeError` a concrete fetcher raises.
* `fetch_carbon_intensity` — the method declared by the abstract interface
  (fetcher.py lines 27-33), returning a full `IntensityFetch`; the default
  models the abstract body `raise NotImplementedError`. -/
structure IntensityFetcher where
  suitable : Option Location → Except Exc Bool
  carbon_intensity : Option Location → Option Int → Except Exc ℚ :=
    fun _ _ => .error (.attributeError "carbon_intensity")
  fetch_carbon_intensity : Option Location → Option Int → Except Exc IntensityFetch :=
    fun _ _ => .error (.other "NotImplementedError")

/-- The static intensity table: the parsed rows of
`data/carbon-intensities.csv` as (alpha-2 code, intensity) pairs, or the
exception raised by `pd.read_csv` when the file is unreadable. -/
abbrev IntensityTable : Type := Except Exc (List (String × ℚ))

/-- The dataframe lookup `df[df["alpha-2"] == country].iloc[0]`
(intensity.py lines 80-83): first row whose alpha-2 code equals the
country, `none` when there is no such row or the table is unreadable. -/
def tableLookup (table : IntensityTable) (country : String) : Option ℚ :=
  match table with
  | .error _ => none
  | .ok rows => ((rows.filter fun r => r.1 == country).head?).map (fun r => r.2)

/-- `IntensityService._get_address` (intensity.py lines 120-124). -/
def get_address (geo : Option Location) : String :=
  match geo with
  | none => "Unknown"
  | some g => if g.ok then g.address else "Unknown"

/-- `IntensityService._get_country` (intensity.py lines 126-130). -/
def get_country (geo : Option Location) : String :=
  match geo with
  | none => "Unknown"
  | some g => if g.ok then g.country else "Unknown"

/-- `geo_location is None or not geo_location.ok` as a Boolean. -/
def location_absent (geo : Option Location) : Bool :=
  match geo with
  | none => true
  | some g => !g.ok

/-- `IntensityService._get_default_carbon_intensity` (intensity.py lines
63-107).  Returns the result, the value assigned to
`using_global_average`, and the warnings written to `logger.err_warn`.
The `try` body reads the CSV and takes `iloc[0]` of the filtered frame
(an empty filter raises `IndexError`); `except Exception` catches any
failure, sets `using_global_average = True`, logs, and falls back to the
world average. -/
def get_default_carbon_intensity (table : IntensityTable)
    (address country : String) : IntensityFetch × Bool × List String :=
  match table with
  | .ok rows =>
    match (rows.filter fun r => r.1 == country).head? with
    | some row =>
      ({ carbon_intensity := row.2, address := address, country := country,
         is_fetched := false, is_localized := true, is_prediction := false,
         time_duration := none }, false, [])
    | none =>
      ({ carbon_intensity := WORLD_AVG_CARBON_INTENSITY, address := address,
         country := country, is_fetched := false, is_localized := false,
         is_prediction := false, time_duration := none }, true,
       ["Unable to determine average default carbon intensity for your specific location "
          ++ address ++ "."])
  | .error _ =>
    ({ carbon_intensity := WORLD_AVG_CARBON_INTENSITY, address := address,
       country := country, is_fetched := false, is_localized := false,
       is_prediction := false, time_duration := none }, true,
     ["Unable to determine average default carbon intensity for your specific location "
        ++ address ++ "."])

/-- The state of an `IntensityService` (intensity.py lines 23-34). -/
structure IntensityService where
  geo_location : Option Location
  address : String
  country : String
  using_global_average : Bool
  default_carbon_intensity : IntensityFetch
  intensity_fetcher : Option IntensityFetcher

/-- `IntensityService.__init__` (intensity.py lines 24-34): the geolocation
outcome (already `none` when `_fetch_geo_location` caught an exception)
and the parsed table are passed in as the external collaborators' results.
Returns the constructed service and the construction-time warnings. -/
def mk_service (geo : Option Location) (table : IntensityTable)
    (fetcher : Option IntensityFetcher) : IntensityService × List String :=
  let address := get_address geo
  let country := get_country geo
  let d := get_default_carbon_intensity table address country
  ({ geo_location := geo, address := address, country := country,
     using_global_average := d.2.1, default_carbon_intensity := d.1,
     intensity_fetcher := fetcher }, d.2.2)

/-- `IntensityService.fetch_carbon_intensity` (intensity.py lines 37-61).
Returns the produced result (or the escaping exception), the final
service state, and the warnings written to `logger.err_warn`, in order.
Faithful details: when `suitable` returns false the method only logs a
warning and falls through (there is no `return`); the `try` wraps only the
`intensity_fetcher.carbon_intensity(...)` call, so an exception raised by
`suitable` escapes; the bare `except` catches every exception from the
lookup; on lookup success the method builds a fresh `IntensityFetch` with
the service's address and country, `is_fetched=True`, `is_localized=True`,
`is_prediction=False` and the default `time_duration=None`. -/
def IntensityService.fetch_carbon_intensity (s : IntensityService)
    (time_duration : Option Int := none) :
    Except Exc IntensityFetch × IntensityService × List String :=
  match s.intensity_fetcher with
  | none => (.ok s.default_carbon_intensity, s, [])
  | some fetcher =>
    match fetcher.suitable s.geo_location with
    | .error e => (.error e, s, [])
    | .ok su =>
      let warns :=
        if su then []
        else ["Fetcher is unable to retrieve carbon intensity data for your detected location "
                ++ s.address]
      match fetcher.carbon_intensity s.geo_location time_duration with
      | .ok ci =>
        (.ok { carbon_intensity := ci, address := s.address, country := s.country,
               is_fetched := true, is_localized := true, is_prediction := false,
               time_duration := none }, s, warns)
      | .error _ =>
        (.ok s.default_carbon_intensity, s,
         warns ++ ["Could not retrieve carbon intensity data"])

/-- Modelled from the spec: `loggerutil.convert_to_timestring` (the repo's
`loggerutil.py` is not under src/); the spec only shows the forecast
horizon rendered as a time string `<duration>`, so the horizon in seconds
is rendered followed by " s". No claim constrains its exact output. -/
def convert_to_timestring (seconds : Int) : String :=
  toString seconds ++ " s"

/-- Python's `f"{x:.2f}"` on the (exact) rational carbon-intensity values:
the value scaled to hundredths, rounded, and printed with two decimal
digits.  All intensity literals in this development are exact hundredths,
where no rounding (and hence no tie-breaking difference with binary
floats) occurs. -/
def formatTwoDecimals (q : ℚ) : String :=
  let cents : Int := round (q * 100)
  let sign := if cents < 0 then "-" else ""
  let n := cents.natAbs
  sign ++ toString (n / 100) ++ "." ++
    (if n % 100 < 10 then "0" else "") ++ toString (n % 100)

/-- `IntensityService.generate_logging_message` (intensity.py lines
132-176), state-threaded: the method performs no assignment, and the
returned state is the unchanged `self`. -/
def IntensityService.generate_logging_message_st (s : IntensityService)
    (cf : IntensityFetch) : String × IntensityService :=
  let location := if s.address ≠ "Unknown" then s.address else "detected location"
  let msg :=
    if cf.is_prediction then
      if cf.is_fetched then
        match cf.time_duration with
        | some d =>
          "Forecasted carbon intensity for the next " ++ convert_to_timestring d
            ++ ": " ++ formatTwoDecimals cf.carbon_intensity ++ " gCO2eq/kWh."
        | none =>
          "Forecasted carbon intensity: " ++ formatTwoDecimals cf.carbon_intensity
            ++ " gCO2eq/kWh."
      else
        match cf.time_duration with
        | some d =>
          "Failed to predict carbon intensity for the next " ++ convert_to_timestring d
            ++ ", fallback on average measured intensity at detected location: "
            ++ s.address ++ "."
        | none =>
          "Failed to predict carbon intensity, fallback on average measured intensity at detected location: "
            ++ s.address ++ "."
    else if cf.is_fetched then
      if cf.is_localized then
        "Live carbon intensity fetched for " ++ location ++ ": "
          ++ formatTwoDecimals cf.carbon_intensity ++ " gCO2eq/kWh."
      else
        "Live carbon intensity could not be fetched at detected location: "
          ++ cf.address ++ "." ++ "Defaulted to average global carbon intensity: "
          ++ formatTwoDecimals cf.carbon_intensity ++ " gCO2eq/kWh. ("
          ++ toString WORLD_AVG_CARBON_INTENSITY_YEAR ++ ")"
    else if cf.is_localized then
      "Defaulted to average carbon intensity for " ++ cf.country ++ ": "
        ++ formatTwoDecimals cf.carbon_intensity ++ " gCO2eq/kWh."
    else
      "Live carbon intensity could not be fetched at detected location: "
        ++ cf.address ++ ". " ++ "Defaulted to average global carbon intensity: "
        ++ formatTwoDecimals cf.carbon_intensity ++ " gCO2eq/kWh ("
        ++ toString WORLD_AVG_CARBON_INTENSITY_YEAR ++ ")."
  (msg, s)

/-- The message string of `generate_logging_message`. -/
def IntensityService.generate_logging_message (s : IntensityService)
    (cf : IntensityFetch) : String :=
  (s.generate_logging_message_st cf).1

/-- The spec's section 4.2 message table: one template per combination of
`(is_prediction, is_fetched, time_duration present?, is_localized)`,
keyed directly by that tuple (so the templates are mutually exclusive by
construction), applied to the rendering inputs. -/
def message_table (sAddress : String) (is_prediction is_fetched is_localized : Bool)
    (time_duration : Option Int) (address country : String) (ci : ℚ) : String :=
  match is_prediction, is_fetched, time_duration, is_localized with
  | true, true, some d, _ =>
    "Forecasted carbon intensity for the next " ++ convert_to_timestring d
      ++ ": " ++ formatTwoDecimals ci ++ " gCO2eq/kWh."
  | true, true, none, _ =>
    "Forecasted carbon intensity: " ++ formatTwoDecimals ci ++ " gCO2eq/kWh."
  | true, false, some d, _ =>
    "Failed to predict carbon intensity for the next " ++ convert_to_timestring d
      ++ ", fallback on average measured intensity at detected location: "
      ++ sAddress ++ "."
  | true, false, none, _ =>
    "Failed to predict carbon intensity, fallback on average measured intensity at detected location: "
      ++ sAddress ++ "."
  | false, true, _, true =>
    "Live carbon intensity fetched for "
      ++ (if sAddress ≠ "Unknown" then sAddress else "detected location") ++ ": "
      ++ formatTwoDecimals ci ++ " gCO2eq/kWh."
  | false, true, _, false =>
    "Live carbon intensity could not be fetched at detected location: "
      ++ address ++ "." ++ "Defaulted to average global carbon intensity: "
      ++ formatTwoDecimals ci ++ " gCO2eq/kWh. ("
      ++ toString WORLD_AVG_CARBON_INTENSITY_YEAR ++ ")"
  | false, false, _, true =>
    "Defaulted to average carbon intensity for " ++ country ++ ": "
      ++ formatTwoDecimals ci ++ " gCO2eq/kWh."
  | false, false, _, false =>
    "Live carbon intensity could not be fetched at detected location: "
      ++ address ++ ". " ++ "Defaulted to average global carbon intensity: "
      ++ formatTwoDecimals ci ++ " gCO2eq/kWh ("
      ++ toString WORLD_AVG_CARBON_INTENSITY_YEAR ++ ")."

/-! ### EnergiDataService time window (energidataservice.py lines 84-96)

Timestamps are modelled as microseconds since an epoch placed at a
midnight boundary, so that for a timestamp `t` the Python datetime fields
are `minute = t / 60000000 % 60`, `second = t / 1000000 % 60` and
`microsecond = t % 1000000`. -/

/-- `EnergiDataService._nearest_5_min` (energidataservice.py lines 91-96):
subtracts `timedelta(minutes=minute % 5, seconds=second,
microseconds=microsecond)` from the timestamp.  (The subsequent
`strftime("%Y-%m-%dT%H:%M")` only drops the already-zero seconds.) -/
def nearest_5_min (t : Nat) : Nat :=
  t - ((t / 60000000 % 60 % 5) * 60000000 + (t / 1000000 % 60) * 1000000 + t % 1000000)

/-- `EnergiDataService._interval` (energidataservice.py lines 84-89):
`from_time = now`, `to_time = now + timedelta(seconds=time_dur)`, both
passed through `_nearest_5_min`.  `now` is the current UTC timestamp in
microseconds, `time_dur` the duration in seconds. -/
def interval (now : Nat) (time_dur : Nat) : Nat × Nat :=
  (nearest_5_min now, nearest_5_min (now + time_dur * 1000000))

/-- `EnergiDataService.fetch_carbon_intensity` (energidataservice.py lines
27-41) with the two HTTP-backed emission queries abstracted as the
collaborator outcomes they produce: without a duration it uses the
current-emission query and builds a non-prediction result; with a
duration it uses the prognosis query and builds a prediction result
carrying that duration.  Attribute accesses on the location object are
explicit: a missing location raises `AttributeError`. -/
def eds_fetch_carbon_intensity (emission_current : Except Exc ℚ)
    (emission_prognosis : Int → Except Exc ℚ)
    (g_location : Option Location) (time_dur : Option Int) :
    Except Exc IntensityFetch :=
  match g_location with
  | none => .error (.attributeError "address")
  | some g =>
    match time_dur with
    | none =>
      emission_current.map fun ci =>
        { carbon_intensity := ci, address := g.address, country := g.country,
          is_fetched := true, is_localized := true, is_prediction := false,
          time_duration := none }
    | some d =>
      (emission_prognosis d).map fun ci =>
        { carbon_intensity := ci, address := g.address, country := g.country,
          is_fetched := true, is_localized := true, is_prediction := true,
          time_duration := some d }

/-! ### HTTP layer model for the concrete fetchers

A `requests.get` call either raises a transport-level exception or yields
a response with an `ok` flag and a body; `response.json()` either raises a
parsing exception or yields a parsed value, modelled as the raw body text
paired with the shape the fetcher extracts from it (`none` when the
expected key chain is absent, in which case the subscript raises a raw
`KeyError`). -/

inductive HttpOutcome (α : Type) where
  | raiseExc (e : Exc)
  | response (ok : Bool) (body : Except Exc (String × α))

/-- `_raise_for_bad_response` (energidataservice.py lines 98-103,
carbonintensitygb.py lines 106-111) and the inline not-ok handling in
electricitymaps.py lines 59-64: the error details are the parsed JSON
body when parseable, otherwise a fixed fallback message; either way a
`CarbonIntensityFetcherError` is raised. -/
def raise_for_bad_response {α : Type} (fallback : String)
    (body : Except Exc (String × α)) : Exc :=
  match body with
  | .ok b => .fetchError b.1
  | .error _ => .fetchError fallback

/-- `ElectricityMap._carbon_intensity_by_location` (electricitymaps.py
lines 35-67) for one already-chosen query: a transport exception
propagates; a not-ok response raises `CarbonIntensityFetcherError` (note
the file's own fallback text "recieved"); on an ok response a JSON
parsing failure propagates, a missing `"carbonIntensity"` key raises a
raw `KeyError`, and otherwise the value is returned. -/
def em_carbon_intensity_by_location (r : HttpOutcome (Option ℚ)) : Except Exc ℚ :=
  match r with
  | .raiseExc e => .error e
  | .response ok body =>
    if ok then
      match body with
      | .error e => .error e
      | .ok (_, none) => .error (.keyError "carbonIntensity")
      | .ok (_, some ci) => .ok ci
    else
      .error (raise_for_bad_response "Bad response recieved from api. Could not parse json" body)

/-- `ElectricityMap.fetch_carbon_intensity` (electricitymaps.py lines
20-32): try the coordinate query; a bare `except` catches any failure and
retries with the zone query, whose failure propagates to the caller.  On
success a fully-populated result is built from the location. -/
def em_fetch_carbon_intensity (coord zone : HttpOutcome (Option ℚ))
    (g : Location) : Except Exc IntensityFetch :=
  let ci : Except Exc ℚ :=
    match em_carbon_intensity_by_location coord with
    | .ok v => .ok v
    | .error _ => em_carbon_intensity_by_location zone
  ci.map fun v =>
    { carbon_intensity := v, address := g.address, country := g.country,
      is_fetched := true, is_localized := true, is_prediction := false,
      time_duration := none }

/-- `EnergiDataService._emission_current` (energidataservice.py lines
43-63) with the per-area record lists abstracted to the extracted
`CO2Emission` values: for each of the areas DK1 and DK2, a transport
exception propagates, a not-ok response raises
`CarbonIntensityFetcherError`, a JSON parsing failure propagates, a
missing `"records"` key raises a raw `KeyError`, an empty record list
raises `CarbonIntensityFetcherError`, and otherwise `records[0]` is
taken; the two values are averaged. -/
def eds_emission_current (dk1 dk2 : HttpOutcome (Option (List ℚ))) : Except Exc ℚ := do
  let get : HttpOutcome (Option (List ℚ)) → Except Exc ℚ := fun r =>
    match r with
    | .raiseExc e => .error e
    | .response ok body =>
      if ok then
        match body with
        | .error e => .error e
        | .ok (_, none) => .error (.keyError "records")
        | .ok (_, some []) => .error (.fetchError "No CO2 emission records returned for area.")
        | .ok (_, some (x :: _)) => .ok x
      else
        .error (raise_for_bad_response "Bad response received from API. Could not parse json" body)
  let v1 ← get dk1
  let v2 ← get dk2
  return (v1 + v2) / 2

/-- `CarbonIntensityGB._carbon_intensity_gb_national` (carbonintensitygb.py
lines 81-95) with the entry chain `json()["data"][0]["intensity"]["forecast"]`
abstracted to a list of forecast values: a transport exception propagates,
a not-ok response raises `CarbonIntensityFetcherError`, a JSON parsing
failure propagates, a missing `"data"` key raises a raw `KeyError`, an
empty data list raises a raw `IndexError`, and otherwise the first value
is returned. -/
def gb_carbon_intensity_national (r : HttpOutcome (Option (List ℚ))) : Except Exc ℚ :=
  match r with
  | .raiseExc e => .error e
  | .response ok body =>
    if ok then
      match body with
      | .error e => .error e
      | .ok (_, none) => .error (.keyError "data")
      | .ok (_, some []) => .error (.other "IndexError")
      | .ok (_, some (x :: _)) => .ok x
    else
      .error (raise_for_bad_response "Bad response received from API. Could not parse json" body)

/-! ### Concrete fixtures used by the theorems below -/

/-- A resolved US location as in the repository's test fixtures. -/
def locUS : Location :=
  { ok := true, address := "Sample Address", country := "US", postal := none }

/-- A resolved DK location. -/
def locDK : Location :=
  { ok := true, address := "Sample Address", country := "DK", postal := none }

/-- A resolved Copenhagen location. -/
def locCopenhagen : Location :=
  { ok := true, address := "Copenhagen, DK", country := "DK", postal := none }

/-- A one-row static table with a US entry. -/
def tableUS : IntensityTable := .ok [("US", 369)]

/-- A one-row static table with a DK entry. -/
def tableDK : IntensityTable := .ok [("DK", 120)]

/-- `EnergiDataService.suitable` (energidataservice.py lines 24-25):
`getattr(g_location, "country", None) == "DK"`; on a missing location the
`getattr` default makes the comparison false, never raising. -/
def eds_suitable (g : Option Location) : Bool :=
  match g with
  | none => false
  | some l => l.country == "DK"

/-- A fetcher implementing exactly the declared interface, shaped like
`EnergiDataService` with both emission queries succeeding with 23: it has
no `carbon_intensity` attribute (the structure default models the
`AttributeError`), while its interface-level `fetch_carbon_intensity`
succeeds. -/
def edsContractFetcher : IntensityFetcher where
  suitable := fun g => .ok (eds_suitable g)
  fetch_carbon_intensity := fun g d =>
    eds_fetch_carbon_intensity (.ok 23) (fun _ => .ok 23) g d

/-- A duck-typed fetcher providing the `carbon_intensity` attribute the
service calls (as the repository's test mocks do), succeeding with 10. -/
def duckFetcher : IntensityFetcher where
  suitable := fun _ => .ok true
  carbon_intensity := fun _ _ => .ok 10

/-- A fetcher that declares every location unsuitable yet whose lookup
succeeds with 100. -/
def unsuitableFetcher : IntensityFetcher where
  suitable := fun _ => .ok false
  carbon_intensity := fun _ _ => .ok 100

/-- A fetcher whose `suitable` itself raises. -/
def raisingSuitableFetcher : IntensityFetcher where
  suitable := fun _ => .error (.other "boom")

/-- A suitable fetcher whose live lookup raises a `FetchError`. -/
def failingLookupFetcher : IntensityFetcher where
  suitable := fun _ => .ok true
  carbon_intensity := fun _ _ => .error (.fetchError "api down")

/-- Service with a DK location and the interface-only EDS-shaped fetcher. -/
def c1_service : IntensityService :=
  (mk_service (some locDK) tableDK (some edsContractFetcher)).1

/-- Service with a DK location and a duck-typed succeeding fetcher. -/
def c1w_service : IntensityService :=
  (mk_service (some locDK) tableDK (some duckFetcher)).1

/-- Service whose fetcher's `suitable` raises. -/
def c2_service : IntensityService :=
  (mk_service (some locUS) tableUS (some raisingSuitableFetcher)).1

/-- Service whose fetcher's live lookup raises. -/
def c2w_service : IntensityService :=
  (mk_service (some locUS) tableUS (some failingLookupFetcher)).1

/-- Service whose fetcher declares the location unsuitable. -/
def c4_service : IntensityService :=
  (mk_service (some locUS) tableUS (some unsuitableFetcher)).1

/-- Service with an unresolved location but a configured, succeeding
duck-typed fetcher. -/
def c5_service : IntensityService :=
  (mk_service none tableUS (some duckFetcher)).1

/-- Service with a Copenhagen location and no fetcher. -/
def c6_service : IntensityService :=
  (mk_service (some locCopenhagen) tableDK none).1

/-- Service with a US location and a duck-typed succeeding fetcher. -/
def c8_service : IntensityService :=
  (mk_service (some locUS) tableUS (some duckFetcher)).1

/-! ### Helper lemmas -/

/-- The default computation is determined by the table lookup: a hit gives
the localized table row, a miss or unreadable table the world average. -/
theorem get_default_eq_lookup (table : IntensityTable) (a c : String) :
    get_default_carbon_intensity table a c =
      match tableLookup table c with
      | some v =>
        ({ carbon_intensity := v, address := a, country := c, is_fetched := false,
           is_localized := true, is_prediction := false, time_duration := none },
         false, [])
      | none =>
        ({ carbon_intensity := WORLD_AVG_CARBON_INTENSITY, address := a, country := c,
           is_fetched := false, is_localized := false, is_prediction := false,
           time_duration := none }, true,
         ["Unable to determine average default carbon intensity for your specific location "
            ++ a ++ "."]) := by
  cases table with
  | error e => rfl
  | ok rows =>
    simp only [get_default_carbon_intensity, tableLookup]
    cases h : (rows.filter fun r => r.1 == c).head? with
    | none => simp [h]
    | some row => simp [h]

/-- An absent or not-ok location resolves address and country to
"Unknown". -/
theorem location_absent_unknown (geo : Option Location)
    (h : location_absent geo = true) :
    get_address geo = "Unknown" ∧ get_country geo = "Unknown" := by
  cases geo with
  | none => exact ⟨rfl, rfl⟩
  | some g =>
    simp only [location_absent, Bool.not_eq_true'] at h
    simp [get_address, get_country, h]

/-- The default result is never marked as fetched. -/
theorem default_not_fetched (table : IntensityTable) (a c : String) :
    (get_default_carbon_intensity table a c).1.is_fetched = false := by
  rw [get_default_eq_lookup]
  cases tableLookup table c <;> rfl

/-! ### Claim theorems -/

/-- C3: at construction, `default_carbon_intensity` follows the strict
tier order: absent location gives the World Average with
`is_localized=False`, `is_fetched=False` (given that the static table,
keyed by alpha-2 country codes, has no "Unknown" row); a table hit for
the resolved country gives that value with `is_localized=True`,
`is_fetched=False`; any lookup failure (country not found or table
unreadable) gives the World Average with `is_localized=False`,
`is_fetched=False`. -/
theorem C3_default_tiers (geo : Option Location) (table : IntensityTable)
    (f : Option IntensityFetcher) :
    (location_absent geo = true → tableLookup table "Unknown" = none →
      (mk_service geo table f).1.default_carbon_intensity =
        { carbon_intensity := WORLD_AVG_CARBON_INTENSITY, address := "Unknown",
          country := "Unknown", is_fetched := false, is_localized := false,
          is_prediction := false, time_duration := none }) ∧
    (∀ g v, geo = some g → g.ok = true → tableLookup table g.country = some v →
      (mk_service geo table f).1.default_carbon_intensity =
        { carbon_intensity := v, address := g.address, country := g.country,
          is_fetched := false, is_localized := true, is_prediction := false,
          time_duration := none }) ∧
    (tableLookup table (get_country geo) = none →
      (mk_service geo table f).1.default_carbon_intensity =
        { carbon_intensity := WORLD_AVG_CARBON_INTENSITY, address := get_address geo,
          country := get_country geo, is_fetched := false, is_localized := false,
          is_prediction := false, time_duration := none }) := by
  have hdef : (mk_service geo table f).1.default_carbon_intensity =
      (get_default_carbon_intensity table (get_address geo) (get_country geo)).1 := rfl
  refine ⟨?_, ?_, ?_⟩
  · intro habs hu
    obtain ⟨ha, hc⟩ := location_absent_unknown geo habs
    rw [hdef, ha, hc, get_default_eq_lookup, hu]
  · intro g v hg hok hv
    have ha : get_address geo = g.address := by simp [hg, get_address, hok]
    have hc : get_country geo = g.country := by simp [hg, get_country, hok]
    rw [hdef, ha, hc, get_default_eq_lookup, hv]
  · intro hnone
    rw [hdef, get_default_eq_lookup, hnone]

/-- Witness for C3: a US location with a table hit yields the 369.5 table
row localized and unfetched; an absent location yields the world average
unlocalized. -/
theorem C3_default_tiers_witness :
    ((mk_service (some locUS) tableUS none).1.default_carbon_intensity =
      { carbon_intensity := 369, address := "Sample Address", country := "US",
        is_fetched := false, is_localized := true, is_prediction := false,
        time_duration := none }) ∧
    ((mk_service none tableUS none).1.default_carbon_intensity =
      { carbon_intensity := WORLD_AVG_CARBON_INTENSITY, address := "Unknown",
        country := "Unknown", is_fetched := false, is_localized := false,
        is_prediction := false, time_duration := none }) :=
  ⟨(C3_default_tiers (some locUS) tableUS none).2.1 locUS 369 rfl rfl rfl,
   (C3_default_tiers none tableUS none).1 rfl rfl⟩

/-- C5 counterexample: with an unresolved location but a configured
fetcher whose lookup succeeds, `fetch_carbon_intensity` does not return
`default_carbon_intensity`: the code does not short-circuit on a missing
location and consults the fetcher anyway. -/
theorem C5_counterexample :
    c5_service.geo_location = none ∧
    (c5_service.fetch_carbon_intensity none).1 =
      .ok { carbon_intensity := 10, address := "Unknown", country := "Unknown",
            is_fetched := true, is_localized := true, is_prediction := false,
            time_duration := none } ∧
    ({ carbon_intensity := 10, address := "Unknown", country := "Unknown",
       is_fetched := true, is_localized := true, is_prediction := false,
       time_duration := none } : IntensityFetch) ≠
      c5_service.default_carbon_intensity :=
  ⟨rfl, rfl, by decide⟩

/-- C5 (amended): if no fetcher is configured, every call to
`fetch_carbon_intensity`, with any duration, returns
`default_carbon_intensity` unchanged with no warning and no state change,
so repeated calls yield results equal by value. -/
theorem C5_amended_no_fetcher_idempotent (s : IntensityService) (d : Option Int)
    (h : s.intensity_fetcher = none) :
    s.fetch_carbon_intensity d = (.ok s.default_carbon_intensity, s, []) := by
  simp [IntensityService.fetch_carbon_intensity, h]

/-- Witness for the amended C5 on the fetcherless Copenhagen service. -/
theorem C5_amended_witness :
    c6_service.fetch_carbon_intensity (some 60) =
      (.ok c6_service.default_carbon_intensity, c6_service, []) :=
  C5_amended_no_fetcher_idempotent c6_service (some 60) rfl

/-- C9 counterexample: `_nearest_5_min` does not round to the nearest
5-minute boundary: at 4 minutes 59 seconds past a boundary it returns the
boundary 299 seconds below rather than the boundary 1 second above. -/
theorem C9_counterexample :
    nearest_5_min 299000000 = 0 ∧ (300000000 : Nat) % 300000000 = 0 ∧
    300000000 - 299000000 < 299000000 - nearest_5_min 299000000 := by
  refine ⟨?_, by norm_num, ?_⟩ <;> norm_num [nearest_5_min]

/-- C9 (amended): `_nearest_5_min` rounds DOWN to the previous 5-minute
boundary (it subtracts the minutes-mod-5, seconds and microseconds), and
`_interval` therefore yields the floors of "now" and "now + duration" to
5-minute boundaries. -/
theorem C9_amended_floor_window (t now d : Nat) :
    nearest_5_min t = t - t % 300000000 ∧
    nearest_5_min t % 300000000 = 0 ∧
    nearest_5_min t ≤ t ∧
    t < nearest_5_min t + 300000000 ∧
    interval now d =
      (now - now % 300000000,
       (now + d * 1000000) - (now + d * 1000000) % 300000000) := by
  have key : ∀ u : Nat, nearest_5_min u = u - u % 300000000 := by
    intro u
    unfold nearest_5_min
    omega
  refine ⟨key t, ?_, ?_, ?_, ?_⟩
  · rw [key t]; omega
  · rw [key t]; omega
  · rw [key t]; omega
  · unfold interval
    rw [key now, key (now + d * 1000000)]

/-- C10: neither `fetch_carbon_intensity` (on every path, including the
failure paths) nor `generate_logging_message` modifies the service state:
the threaded state is returned unchanged. -/
theorem C10_frame (s : IntensityService) (d : Option Int) (cf : IntensityFetch) :
    (s.fetch_carbon_intensity d).2.1 = s ∧
    (s.generate_logging_message_st cf).2 = s := by
  refine ⟨?_, rfl⟩
  cases hf : s.intensity_fetcher with
  | none => simp [IntensityService.fetch_carbon_intensity, hf]
  | some fetcher =>
    cases hs : fetcher.suitable s.geo_location with
    | error e => simp [IntensityService.fetch_carbon_intensity, hf, hs]
    | ok su =>
      cases hc : fetcher.carbon_intensity s.geo_location d with
      | error e => simp [IntensityService.fetch_carbon_intensity, hf, hs, hc]
      | ok ci => simp [IntensityService.fetch_carbon_intensity, hf, hs, hc]

/-- C1 counterexample: with a suitable fetcher implementing exactly the
declared interface and a forecast duration, the fetcher's own live lookup
(`fetch_carbon_intensity` of fetcher.py) succeeds with a prediction
result, yet the service returns `default_carbon_intensity` (the service
consults a `carbon_intensity` attribute the interface does not declare),
which differs from the fetcher's result in every claimed field — not the
fetcher's `IntensityResult` verbatim. -/
theorem C1_counterexample :
    edsContractFetcher.fetch_carbon_intensity c1_service.geo_location (some 3600) =
      .ok { carbon_intensity := 23, address := "Sample Address", country := "DK",
            is_fetched := true, is_localized := true, is_prediction := true,
            time_duration := some 3600 } ∧
    edsContractFetcher.suitable c1_service.geo_location = .ok true ∧
    (c1_service.fetch_carbon_intensity (some 3600)).1 =
      .ok c1_service.default_carbon_intensity ∧
    c1_service.default_carbon_intensity ≠
      { carbon_intensity := 23, address := "Sample Address", country := "DK",
        is_fetched := true, is_localized := true, is_prediction := true,
        time_duration := some 3600 } :=
  ⟨rfl, rfl, rfl, by decide⟩

/-- C1 (amended): when the live lookup the service actually performs (the
fetcher's `carbon_intensity` attribute) succeeds with value `ci` for a
suitable fetcher, `fetch_carbon_intensity(duration)` returns a freshly
built `IntensityResult` with `carbon_intensity = ci`, the service's own
address and country, `is_fetched=True`, `is_localized=True`,
`is_prediction=False` and `time_duration=None`, with no warning and no
state change. -/
theorem C1_amended_success_shape (s : IntensityService) (f : IntensityFetcher)
    (d : Option Int) (ci : ℚ)
    (hf : s.intensity_fetcher = some f)
    (hs : f.suitable s.geo_location = .ok true)
    (hc : f.carbon_intensity s.geo_location d = .ok ci) :
    s.fetch_carbon_intensity d =
      (.ok { carbon_intensity := ci, address := s.address, country := s.country,
             is_fetched := true, is_localized := true, is_prediction := false,
             time_duration := none }, s, []) := by
  simp [IntensityService.fetch_carbon_intensity, hf, hs, hc]

/-- Witness for the amended C1 on a duck-typed fetcher succeeding with
10. -/
theorem C1_amended_witness :
    c1w_service.fetch_carbon_intensity (some 3600) =
      (.ok { carbon_intensity := 10, address := "Sample Address", country := "DK",
             is_fetched := true, is_localized := true, is_prediction := false,
             time_duration := none }, c1w_service, []) :=
  C1_amended_success_shape c1w_service duckFetcher (some 3600) 10 rfl rfl rfl

/-- C2 counterexample: a fetcher whose `suitable` raises makes
`fetch_carbon_intensity` raise — `suitable` is called outside the `try`
block, so its exception escapes the method. -/
theorem C2_counterexample :
    (c2_service.fetch_carbon_intensity none).1 = .error (.other "boom") := rfl

/-- C2 (amended): provided the fetcher's `suitable` call returns rather
than raises, `fetch_carbon_intensity` never raises for any duration and
any lookup behaviour: it returns a result, and when the live lookup
raises any exception the error is caught inside the method, the
fetch-failed warning is logged, and `default_carbon_intensity` is
returned. An exception raised by `suitable` itself, however, escapes. -/
theorem C2_amended_no_raise (s : IntensityService) (d : Option Int)
    (h : ∀ f, s.intensity_fetcher = some f →
      ∃ b, f.suitable s.geo_location = .ok b) :
    (∃ r, (s.fetch_carbon_intensity d).1 = .ok r) ∧
    (∀ f e, s.intensity_fetcher = some f →
      f.carbon_intensity s.geo_location d = .error e →
      (s.fetch_carbon_intensity d).1 = .ok s.default_carbon_intensity ∧
      "Could not retrieve carbon intensity data" ∈ (s.fetch_carbon_intensity d).2.2) := by
  cases hf : s.intensity_fetcher with
  | none =>
    refine ⟨⟨s.default_carbon_intensity, by simp [IntensityService.fetch_carbon_intensity, hf]⟩, ?_⟩
    intro f e hf' _
    exact absurd hf' (by simp)
  | some f =>
    obtain ⟨b, hb⟩ := h f hf
    constructor
    · cases hc : f.carbon_intensity s.geo_location d with
      | ok ci =>
        refine ⟨{ carbon_intensity := ci, address := s.address, country := s.country,
                  is_fetched := true, is_localized := true, is_prediction := false,
                  time_duration := none }, ?_⟩
        simp [IntensityService.fetch_carbon_intensity, hf, hb, hc]
      | error e =>
        exact ⟨s.default_carbon_intensity,
          by simp [IntensityService.fetch_carbon_intensity, hf, hb, hc]⟩
    · intro f' e hf' hc
      injection hf' with hf''
      subst hf''
      refine ⟨?_, ?_⟩ <;> simp [IntensityService.fetch_carbon_intensity, hf, hb, hc]

/-- Witness for the amended C2: a suitable fetcher whose live lookup
raises a `FetchError` yields the default result and the fetch-failed
warning. -/
theorem C2_amended_witness :
    (c2w_service.fetch_carbon_intensity none).1 =
      .ok c2w_service.default_carbon_intensity ∧
    "Could not retrieve carbon intensity data" ∈
      (c2w_service.fetch_carbon_intensity none).2.2 :=
  (C2_amended_no_raise c2w_service none
      (fun f hf => ⟨true, by rw [show f = failingLookupFetcher by injection hf with h; exact h.symm]; rfl⟩)).2
    failingLookupFetcher (.fetchError "api down") rfl rfl

/-- C4: the claim is right and the code is wrong — when `suitable` is
false the method logs the warning naming the detected address but is
missing a `return`: it falls through, still invokes the live lookup and,
when that succeeds, returns the fetched result instead of
`default_carbon_intensity` (evaluated here on a US service whose fetcher
declares the location unsuitable yet whose lookup succeeds with 100). -/
theorem C4_code_bug_eval :
    c4_service.fetch_carbon_intensity none =
      (.ok { carbon_intensity := 100, address := "Sample Address", country := "US",
             is_fetched := true, is_localized := true, is_prediction := false,
             time_duration := none }, c4_service,
       ["Fetcher is unable to retrieve carbon intensity data for your detected location Sample Address"]) ∧
    ({ carbon_intensity := 100, address := "Sample Address", country := "US",
       is_fetched := true, is_localized := true, is_prediction := false,
       time_duration := none } : IntensityFetch) ≠
      c4_service.default_carbon_intensity :=
  ⟨rfl, by decide⟩

/-- C6: `generate_logging_message` is a pure, deterministic function of
the result's fields and the service address: it equals the section-4.2
table rendering, keyed exactly (hence mutually exclusively) by
`(is_prediction, is_fetched, time_duration present?, is_localized)`, with
the carbon intensity rendered to two decimals with the unit gCO2eq/kWh;
and on the literal example (143.30, not a prediction, fetched, localized,
address "Copenhagen, DK") it yields exactly
"Live carbon intensity fetched for Copenhagen, DK: 143.30 gCO2eq/kWh.". -/
theorem C6_logging_message :
    (∀ (s : IntensityService) (cf : IntensityFetch),
      s.generate_logging_message cf =
        message_table s.address cf.is_prediction cf.is_fetched cf.is_localized
          cf.time_duration cf.address cf.country cf.carbon_intensity) ∧
    c6_service.generate_logging_message
        { carbon_intensity := 143.30, address := "Copenhagen, DK", country := "DK",
          is_fetched := true, is_localized := true, is_prediction := false,
          time_duration := none } =
      "Live carbon intensity fetched for Copenhagen, DK: 143.30 gCO2eq/kWh." := by
  constructor
  · intro s cf
    obtain ⟨ci, addr, ctry, fet, loc, pred, td⟩ := cf
    cases pred <;> cases fet <;> cases loc <;> cases td <;> rfl
  · have h100 : ((143.30 : ℚ) * 100) = (14330 : ℚ) := by norm_num
    have hr : round ((143.30 : ℚ) * 100) = 14330 := by
      rw [h100]; norm_num [round_eq]
    simp only [IntensityService.generate_logging_message,
      IntensityService.generate_logging_message_st, formatTwoDecimals, hr]
    rfl

/-- C7 counterexample: when both ElectricityMap lookup strategies hit a
transport-level failure, `fetch_carbon_intensity` propagates the raw
transport exception to the caller — not the taxonomy `FetchError`. -/
theorem C7_counterexample :
    em_fetch_carbon_intensity (.raiseExc (.transportError "ConnectionError"))
        (.raiseExc (.transportError "ConnectionError")) locDK =
      .error (.transportError "ConnectionError") ∧
    (Exc.transportError "ConnectionError").isFetchError = false :=
  ⟨rfl, rfl⟩

/-- C7 (amended): for each modelled lookup operation (ElectricityMap's
zone query once the coordinate attempt has failed, EnergiDataService's
current-endpoint query, and CarbonIntensityGB's national query), a
not-ok HTTP response raises the taxonomy error
`CarbonIntensityFetcherError` whether or not the error body parses, and
EnergiDataService raises it on an ok response with an empty record list;
but the operations do not fail only with that error: transport
exceptions raised by the HTTP library, JSON-parse failures of an ok
response's body, missing-key errors, and CarbonIntensityGB's
`IndexError` on an ok response with an empty data list all propagate to
the caller as raw, unwrapped exceptions. -/
theorem C7_amended_error_taxonomy :
    (∀ (coord : HttpOutcome (Option ℚ)) (body : Except Exc (String × Option ℚ))
        (g : Location) (e₀ : Exc),
      em_carbon_intensity_by_location coord = .error e₀ →
      ∃ d, em_fetch_carbon_intensity coord (.response false body) g =
        .error (.fetchError d)) ∧
    (∀ (coord : HttpOutcome (Option ℚ)) (g : Location) (e e₀ : Exc),
      em_carbon_intensity_by_location coord = .error e₀ →
      em_fetch_carbon_intensity coord (.raiseExc e) g = .error e) ∧
    (∀ (coord : HttpOutcome (Option ℚ)) (g : Location) (e e₀ : Exc),
      em_carbon_intensity_by_location coord = .error e₀ →
      em_fetch_carbon_intensity coord (.response true (.error e)) g = .error e) ∧
    (∀ (coord : HttpOutcome (Option ℚ)) (g : Location) (raw : String) (e₀ : Exc),
      em_carbon_intensity_by_location coord = .error e₀ →
      em_fetch_carbon_intensity coord (.response true (.ok (raw, none))) g =
        .error (.keyError "carbonIntensity") ∧
      (Exc.keyError "carbonIntensity").isFetchError = false) ∧
    (∀ (body : Except Exc (String × Option (List ℚ))) (dk2 : HttpOutcome (Option (List ℚ))),
      ∃ d, eds_emission_current (.response false body) dk2 = .error (.fetchError d)) ∧
    (∀ (e : Exc) (dk2 : HttpOutcome (Option (List ℚ))),
      eds_emission_current (.raiseExc e) dk2 = .error e) ∧
    (∀ (e : Exc) (dk2 : HttpOutcome (Option (List ℚ))),
      eds_emission_current (.response true (.error e)) dk2 = .error e) ∧
    (∀ (raw : String) (dk2 : HttpOutcome (Option (List ℚ))),
      eds_emission_current (.response true (.ok (raw, none))) dk2 =
        .error (.keyError "records") ∧
      (Exc.keyError "records").isFetchError = false) ∧
    (∀ (raw : String) (dk2 : HttpOutcome (Option (List ℚ))),
      eds_emission_current (.response true (.ok (raw, some []))) dk2 =
        .error (.fetchError "No CO2 emission records returned for area.")) ∧
    (∀ (body : Except Exc (String × Option (List ℚ))),
      ∃ d, gb_carbon_intensity_national (.response false body) = .error (.fetchError d)) ∧
    (∀ e : Exc, gb_carbon_intensity_national (.raiseExc e) = .error e) ∧
    (∀ e : Exc,
      gb_carbon_intensity_national (.response true (.error e)) = .error e) ∧
    (∀ raw : String,
      gb_carbon_intensity_national (.response true (.ok (raw, none))) =
        .error (.keyError "data") ∧
      (Exc.keyError "data").isFetchError = false) ∧
    (∀ raw : String,
      gb_carbon_intensity_national (.response true (.ok (raw, some []))) =
        .error (.other "IndexError") ∧
      (Exc.other "IndexError").isFetchError = false) := by
  refine ⟨?_, ?_, ?_, ?_, ?_, ?_, ?_, ?_, ?_, ?_, ?_, ?_, ?_, ?_⟩
  · intro coord body g e₀ h
    cases body with
    | ok b =>
      refine ⟨b.1, ?_⟩
      simp only [em_fetch_carbon_intensity, h]
      simp [em_carbon_intensity_by_location, raise_for_bad_response, Except.map]
    | error e =>
      refine ⟨"Bad response recieved from api. Could not parse json", ?_⟩
      simp only [em_fetch_carbon_intensity, h]
      simp [em_carbon_intensity_by_location, raise_for_bad_response, Except.map]
  · intro coord g e e₀ h
    simp only [em_fetch_carbon_intensity, h]
    simp [em_carbon_intensity_by_location, Except.map]
  · intro coord g e e₀ h
    simp only [em_fetch_carbon_intensity, h]
    simp [em_carbon_intensity_by_location, Except.map]
  · intro coord g raw e₀ h
    refine ⟨?_, rfl⟩
    simp only [em_fetch_carbon_intensity, h]
    simp [em_carbon_intensity_by_location, Except.map]
  · intro body dk2
    cases body with
    | ok b =>
      exact ⟨b.1, by simp [eds_emission_current, raise_for_bad_response,
        Bind.bind, Except.bind, Functor.map, Except.map]⟩
    | error e =>
      exact ⟨"Bad response received from API. Could not parse json",
        by simp [eds_emission_current, raise_for_bad_response,
          Bind.bind, Except.bind, Functor.map, Except.map]⟩
  · intro e dk2
    simp [eds_emission_current, Bind.bind, Except.bind, Functor.map, Except.map]
  · intro e dk2
    simp [eds_emission_current, Bind.bind, Except.bind, Functor.map, Except.map]
  · intro raw dk2
    exact ⟨by simp [eds_emission_current, Bind.bind, Except.bind,
      Functor.map, Except.map], rfl⟩
  · intro raw dk2
    simp [eds_emission_current, Bind.bind, Except.bind, Functor.map, Except.map]
  · intro body
    cases body with
    | ok b =>
      exact ⟨b.1, by simp [gb_carbon_intensity_national, raise_for_bad_response]⟩
    | error e =>
      exact ⟨"Bad response received from API. Could not parse json",
        by simp [gb_carbon_intensity_national, raise_for_bad_response]⟩
  · intro e
    simp [gb_carbon_intensity_national]
  · intro e
    simp [gb_carbon_intensity_national]
  · intro raw
    exact ⟨by simp [gb_carbon_intensity_national], rfl⟩
  · intro raw
    exact ⟨by simp [gb_carbon_intensity_national], rfl⟩

/-- Witness for the amended C7: with a failed coordinate query and a
not-ok zone response, ElectricityMap raises a `FetchError`. -/
theorem C7_amended_witness :
    ∃ d, em_fetch_carbon_intensity (.raiseExc (.transportError "ConnectionError"))
        (.response false (.error (.parseError "invalid json"))) locDK =
      .error (.fetchError d) :=
  C7_amended_error_taxonomy.1 (.raiseExc (.transportError "ConnectionError"))
    (.error (.parseError "invalid json")) locDK (.transportError "ConnectionError") rfl

/-- C8: every result the core produces satisfies the invariant that
`is_fetched=True` implies `is_localized=True`: the construction-time
default on either tier, and the result of `fetch_carbon_intensity` on
every path of a constructed service. -/
theorem C8_fetched_implies_localized (geo : Option Location)
    (table : IntensityTable) (f : Option IntensityFetcher) (d : Option Int) :
    ((mk_service geo table f).1.default_carbon_intensity.is_fetched = true →
      (mk_service geo table f).1.default_carbon_intensity.is_localized = true) ∧
    (∀ (r : IntensityFetch) (st : IntensityService) (logs : List String),
      (mk_service geo table f).1.fetch_carbon_intensity d = (.ok r, st, logs) →
      r.is_fetched = true → r.is_localized = true) := by
  have hdef : (mk_service geo table f).1.default_carbon_intensity =
      (get_default_carbon_intensity table (get_address geo) (get_country geo)).1 := rfl
  have hnf : (mk_service geo table f).1.default_carbon_intensity.is_fetched = false := by
    rw [hdef, default_not_fetched]
  constructor
  · intro h
    rw [hnf] at h
    exact absurd h (by simp)
  · intro r st logs heq hfet
    cases hf : (mk_service geo table f).1.intensity_fetcher with
    | none =>
      simp only [IntensityService.fetch_carbon_intensity, hf, Prod.mk.injEq,
        Except.ok.injEq] at heq
      obtain ⟨h1, -, -⟩ := heq
      rw [← h1, hnf] at hfet
      exact absurd hfet (by simp)
    | some fetcher =>
      cases hs : fetcher.suitable (mk_service geo table f).1.geo_location with
      | error e =>
        simp [IntensityService.fetch_carbon_intensity, hf, hs] at heq
      | ok su =>
        cases hc : fetcher.carbon_intensity (mk_service geo table f).1.geo_location d with
        | ok ci =>
          simp only [IntensityService.fetch_carbon_intensity, hf, hs, hc,
            Prod.mk.injEq, Except.ok.injEq] at heq
          obtain ⟨h1, -, -⟩ := heq
          rw [← h1]
        | error e =>
          simp only [IntensityService.fetch_carbon_intensity, hf, hs, hc,
            Prod.mk.injEq, Except.ok.injEq] at heq
          obtain ⟨h1, -, -⟩ := heq
          rw [← h1, hnf] at hfet
          exact absurd hfet (by simp)

/-- Witness for C8 on a service whose duck-typed fetcher succeeds: the
fetched result is localized. -/
theorem C8_witness :
    ({ carbon_intensity := 10, address := "Sample Address", country := "US",
       is_fetched := true, is_localized := true, is_prediction := false,
       time_duration := none } : IntensityFetch).is_localized = true :=
  (C8_fetched_implies_localized (some locUS) tableUS (some duckFetcher) none).2
    { carbon_intensity := 10, address := "Sample Address", country := "US",
      is_fetched := true, is_localized := true, is_prediction := false,
      time_duration := none } c8_service [] rfl rfl

end Carbontracker
